import Mathlib

/-!
Verification of the PhantomScan detection engine against its specification.

The definitions below are shallow embeddings of the Python source under
`radar/`: pure functions become Lean functions over `ℚ`, `Int`, `String`,
`Option` and `List`; HTTP transport is abstracted as an explicit outcome
value handed to the function that would perform the call; Python exceptions
become `Except` values.  Each definition names the source function it
embeds.
-/

namespace PhantomScan

/-- Package ecosystem identifier (radar/types.py, class Ecosystem). -/
inductive Ecosystem
| pypi
| npm
deriving DecidableEq, Repr

/-- The string value of an ecosystem member (Ecosystem is a str Enum). -/
def Ecosystem.value : Ecosystem → String
| .pypi => "pypi"
| .npm => "npm"

/-! ## Registry existence prober (radar/registry/existence.py) -/

/-- Outcome of a single HTTP call as the prober observes it: a response with
a status code, a transport timeout exception (httpx.TimeoutException), or
any other exception. -/
inductive HttpOutcome
| status (code : Nat)
| timeout
| otherError
deriving DecidableEq, Repr

/-- Embeds `_check_npm_existence` (existence.py lines 51-93).  The first
argument is the outcome of the HEAD request, the second the outcome of the
fallback GET request (issued only when HEAD returns a status other than
200/404).  The second component counts HTTP requests actually issued. -/
def checkNpmExistence (head get : HttpOutcome) : (Bool × String) × Nat :=
  match head with
  | .timeout => ((false, "timeout"), 1)
  | .otherError => ((false, "error"), 1)
  | .status c =>
    if c = 200 then ((true, "ok"), 1)
    else if c = 404 then ((false, "404"), 1)
    else
      match get with
      | .timeout => ((false, "timeout"), 2)
      | .otherError => ((false, "error"), 2)
      | .status c2 =>
        if c2 = 200 then ((true, "ok"), 2)
        else if c2 = 404 then ((false, "404"), 2)
        else ((false, "error"), 2)

/-- Embeds `_check_pypi_existence` (existence.py lines 77-93): a single GET. -/
def checkPypiExistence (get : HttpOutcome) : (Bool × String) × Nat :=
  match get with
  | .timeout => ((false, "timeout"), 1)
  | .otherError => ((false, "error"), 1)
  | .status c =>
    if c = 200 then ((true, "ok"), 1)
    else if c = 404 then ((false, "404"), 1)
    else ((false, "error"), 1)

/-- Embeds `exists_in_registry` (existence.py lines 14-48).  `offline` is the
global offline switch (`is_offline_mode()`), checked before anything else;
`head`/`get` are the transport outcomes the npm or PyPI check would observe.
The `Nat` component counts HTTP requests issued. -/
def existsInRegistry (offline : Bool) (ecosystem nm : String)
    (head get : HttpOutcome) : (Bool × String) × Nat :=
  if offline then ((false, "offline"), 0)
  else if ecosystem = "npm" then checkNpmExistence head get
  else if ecosystem = "pypi" then checkPypiExistence get
  else
    let _ := nm
    ((false, "error"), 0)

/-! ## Download anomaly (radar/enrich/downloads.py) -/

/-- Embeds `compute_download_anomaly` (downloads.py lines 48-79).
`downloads` is the weekly download count (`None` on lookup failure),
`ageDays` the package age in days. -/
def computeDownloadAnomaly (downloads : Option Int) (ageDays : Int) : ℚ :=
  match downloads with
  | none => 0
  | some d =>
    if d = 0 then 0
    else if ageDays < 7 then
      if d > 1000 then min 1 ((d : ℚ) / 10000) else 0
    else if ageDays < 30 then
      if d > 10000 then min 1 (((d : ℚ) - 10000) / 50000) else 0
    else 0

/-- The download-anomaly formula as the amended claim states it: strictly
more than 1000 weekly downloads for ages below 7 days, strictly more than
10000 for ages 7 to 29 days, otherwise 0; unknown downloads give 0. -/
def downloadAnomalySpec (downloads : Option Int) (ageDays : Int) : ℚ :=
  match downloads with
  | none => 0
  | some d =>
    if ageDays < 7 ∧ d > 1000 then min ((d : ℚ) / 10000) 1
    else if 7 ≤ ageDays ∧ ageDays < 30 ∧ d > 10000 then
      min (((d : ℚ) - 10000) / 50000) 1
    else 0

/-! ## Data model (radar/types.py) and registry documents -/

/-- One npm maintainer record as the npm parser reads it (an object whose
`email` key may be absent). -/
structure NpmMaintainer where
  email : Option String := none
deriving DecidableEq, Repr

/-- The `dist` object of one npm version, as read by
`npm_provenance_indicator` (radar/enrich/provenance.py): presence of the
`attestations` key, the `signatures` key with its list value (present but
possibly empty), and the legacy `npm-signature` key.  A missing `dist` key
behaves exactly like the all-default value, mirroring `.get("dist", ...)`
with an empty-dict default. -/
structure DistObj where
  attestationsPresent : Bool := false
  signatures : Option (List String) := none
  npmSignaturePresent : Bool := false
deriving DecidableEq, Repr

/-- One entry of a packument `versions` table: its `scripts` table and its
`dist` object.  Absent keys behave like the defaults (`.get` with an
empty-dict default). -/
structure NpmVersionData where
  scripts : List (String × String) := []
  dist : DistObj := {}
deriving DecidableEq, Repr

/-- An npm packument restricted to the keys the parser, scorer and
provenance enrichment read.  `timeCreatedDay` models the parsed
`time.created` timestamp in days (`none` when the key is absent or fails to
parse, in which case the parser falls back to now); `maintainers = none`
models a non-list value of the `maintainers` key.  `latestScripts` is the
`latest_scripts` key read by `_score_npm_content_risk`. -/
structure Packument where
  name : Option String := none
  timeCreatedDay : Option Int := none
  distTagLatest : Option String := none
  versions : List (String × NpmVersionData) := []
  repositoryUrl : Option String := none
  homepage : Option String := none
  maintainers : Option (List NpmMaintainer) := some []
  description : Option String := none
  latestScripts : List (String × String) := []
deriving DecidableEq, Repr

/-- One release file record of a PyPI JSON document; `uploadTimeDay` models
the parsed `upload_time_iso_8601` field in days. -/
structure PyPIFileInfo where
  uploadTimeDay : Option Int := none
deriving DecidableEq, Repr

/-- The `info` object of a PyPI JSON document, restricted to the keys the
parser and scorer read. -/
structure PyPIInfo where
  name : Option String := none
  version : Option String := none
  homePage : Option String := none
  projectUrl : Option String := none
  projectUrls : Option (List (String × String)) := none
  summary : Option String := none
deriving DecidableEq, Repr

/-- A PyPI JSON API document restricted to the keys read by
`PyPISource._parse_package_json` and the scorer.  A missing `info` key
behaves like the all-default value (`.get("info", ...)` with an empty-dict
default). -/
structure PyPIDoc where
  info : PyPIInfo := {}
  releases : List (String × List PyPIFileInfo) := []
deriving DecidableEq, Repr

/-- The raw registry document retained on a candidate (`raw_metadata`),
tagged by origin; `empty` models the default empty dict. -/
inductive RawMeta
| empty
| npm (p : Packument)
| pypi (d : PyPIDoc)
deriving DecidableEq, Repr

/-- Duck-typed read of `raw_metadata` as an npm packument, as
`_score_provenance_risk` does for npm candidates; a non-packument or empty
value behaves like a falsy/empty dict (`none`). -/
def RawMeta.npmPackument : RawMeta → Option Packument
| .npm p => some p
| _ => none

/-- Duck-typed read of `raw_metadata` as a PyPI document. -/
def RawMeta.pypiDoc : RawMeta → Option PyPIDoc
| .pypi d => some d
| _ => none

/-- Embeds `PackageCandidate` (radar/types.py lines 17-30).  The pydantic
model declares plain fields with no validator: the constructor stores every
field exactly as given.  `createdAt` is in days. -/
structure PackageCandidate where
  ecosystem : Ecosystem
  name : String
  version : String
  createdAt : Int
  homepage : Option String := none
  repository : Option String := none
  maintainersCount : Int := 0
  hasInstallScripts : Bool := false
  description : Option String := none
  rawMetadata : RawMeta := .empty
deriving DecidableEq, Repr

/-- Python truthiness of an optional string (`bool(x)`): `None` and the
empty string are falsy. -/
def pyTruthy : Option String → Bool
| none => false
| some s => s ≠ ""

/-- Python `a or b` on two optional strings: a falsy left operand (absent
key or empty string) yields the right operand. -/
def pyOr (a b : Option String) : Option String :=
  match a with
  | some s => if s = "" then b else some s
  | none => b

/-- Dictionary lookup `d.get(key)` on an association list. -/
def lookupStr (key : String) : List (String × String) → Option String
| [] => none
| kv :: rest => if kv.1 = key then some kv.2 else lookupStr key rest

/-- Dictionary lookup on a packument `versions` table. -/
def lookupVersion (key : String) : List (String × NpmVersionData) → Option NpmVersionData
| [] => none
| kv :: rest => if kv.1 = key then some kv.2 else lookupVersion key rest

/-! ## Source parsers (radar/sources/npm.py, radar/sources/pypi.py) -/

/-- Embeds `NpmSource._parse_npm_doc` (npm.py lines 84-171).  A missing or
empty `name` (Python falsiness) yields `None`; otherwise the candidate is
built with the name exactly as found in the document.  The
`disposable_email` and `maintainers_age_hint_days` keyword arguments the
source passes are dropped here because the pydantic model declares neither
field and ignores extra keys. -/
def parseNpmDoc (now : Int) (doc : Packument) : Option PackageCandidate :=
  match doc.name with
  | none => none
  | some n =>
    if n = "" then none
    else
      let createdAt := doc.timeCreatedDay.getD now
      let latest := doc.distTagLatest.getD "0.0.0"
      let maintainersCount : Int :=
        match doc.maintainers with
        | some l => l.length
        | none => 1
      let hasInstall :=
        match lookupVersion latest doc.versions with
        | some vd =>
          vd.scripts.any (fun kv =>
            kv.1 = "install" || kv.1 = "preinstall" || kv.1 = "postinstall")
        | none => false
      some
        { ecosystem := .npm
          name := n
          version := latest
          createdAt := createdAt
          homepage := doc.homepage
          repository := doc.repositoryUrl
          maintainersCount := maintainersCount
          hasInstallScripts := hasInstall
          description := doc.description
          rawMetadata := .npm doc }

/-- Earliest upload day across all release files (the inner double loop of
`_parse_package_json`), `none` when no file carries an upload time. -/
def earliestUpload (releases : List (String × List PyPIFileInfo)) : Option Int :=
  releases.foldl
    (fun acc rel =>
      rel.2.foldl
        (fun acc2 fi =>
          match fi.uploadTimeDay with
          | none => acc2
          | some t =>
            match acc2 with
            | none => some t
            | some e => some (min e t))
        acc)
    none

/-- Embeds `PyPISource._parse_package_json` (pypi.py lines 106-146).  The
name defaults to the empty string when absent and is stored exactly as
found; the repository URL is the first match among the Source, Repository,
Code, GitHub and GitLab project-url keys; the homepage falls back from
`home_page` to `project_url` by Python `or`. -/
def parsePackageJson (now : Int) (doc : PyPIDoc) : PackageCandidate :=
  let info := doc.info
  let earliest := (earliestUpload doc.releases).getD now
  let urls := info.projectUrls.getD []
  let repoUrl :=
    match lookupStr "Source" urls with
    | some u => some u
    | none =>
      match lookupStr "Repository" urls with
      | some u => some u
      | none =>
        match lookupStr "Code" urls with
        | some u => some u
        | none =>
          match lookupStr "GitHub" urls with
          | some u => some u
          | none => lookupStr "GitLab" urls
  { ecosystem := .pypi
    name := info.name.getD ""
    version := info.version.getD ""
    createdAt := earliest
    homepage := pyOr info.homePage info.projectUrl
    repository := repoUrl
    maintainersCount := 1
    hasInstallScripts := false
    description := info.summary
    rawMetadata := .pypi doc }

/-! ## Provenance indicators (radar/enrich/provenance.py) -/

/-- Embeds `npm_provenance_indicator` (provenance.py lines 6-50).  `none`
models a falsy (empty or missing) packument.  The checks run in source
order: the `attestations` key yields 0; a present, nonempty `signatures`
list yields 0; the legacy `npm-signature` key yields 0.2; otherwise 1. -/
def npmProvenanceIndicator (pd : Option Packument) : ℚ :=
  match pd with
  | none => 1
  | some p =>
    match p.distTagLatest with
    | none => 1
    | some latest =>
      let vd := (lookupVersion latest p.versions).getD {}
      let dist := vd.dist
      if dist.attestationsPresent then 0
      else
        match dist.signatures with
        | some (_ :: _) => 0
        | _ => if dist.npmSignaturePresent then 2/10 else 1

/-- Embeds `pypi_provenance_indicator` (provenance.py lines 53-74): a
placeholder that always reports 1. -/
def pypiProvenanceIndicator (_d : Option PyPIDoc) : ℚ := 1

/-- Embeds `PackageScorer._score_provenance_risk` (heuristics.py lines
351-374).  `offline` is the global offline switch and `enableGithub` the
`lookups.enable_github` policy toggle.  For npm the indicator value is
passed through with a reason depending on its size; for PyPI the indicator
is computed and then discarded, the subscore being 0. -/
def scoreProvenanceRisk (offline enableGithub : Bool) (c : PackageCandidate) :
    ℚ × List String :=
  if offline then (0, ["Offline mode: provenance check skipped"])
  else if ¬ enableGithub then (0, ["Provenance checks disabled"])
  else
    match c.ecosystem with
    | .npm =>
      let risk := npmProvenanceIndicator c.rawMetadata.npmPackument
      if risk > 8/10 then (risk, ["No npm provenance signatures found"])
      else if risk > 0 then (risk, ["Weak provenance indicators"])
      else (0, [])
    | .pypi =>
      let _ := pypiProvenanceIndicator c.rawMetadata.pypiDoc
      (0, [])

/-! ## Name suspicion (radar/scoring/heuristics.py, _score_name_suspicion) -/

/-- The policy and corpus inputs of the name-suspicion signal
(`policy.heuristics`): suspicious prefix and suffix lists, per-ecosystem
canonical package lists, and the fuzzy-match distance threshold. -/
structure NamePolicy where
  suspiciousPrefixes : List String := []
  suspiciousSuffixes : List String := []
  canonicalPypi : List String := []
  canonicalNpm : List String := []
  fuzzyThreshold : ℚ := 15
deriving DecidableEq, Repr

/-- The canonical list for the candidate ecosystem
(`canonical_packages.get(ecosystem_key, [])`). -/
def NamePolicy.canonicalFor (pol : NamePolicy) : Ecosystem → List String
| .pypi => pol.canonicalPypi
| .npm => pol.canonicalNpm

/-- Embeds `PackageScorer._score_name_suspicion` (heuristics.py lines
119-155).  `ratio` abstracts `rapidfuzz.fuzz.ratio`, a similarity in
`[0,100]`; everything else is translated clause by clause: prefix hits
raise the running maximum to 0.8, suffix hits to 0.6, and each canonical
name at distance `d = 100 - ratio` with `0 < d ≤ fuzzyThreshold` raises it
to `(1 - d/threshold) * 0.9`; the result is clamped by `min 1`.  Reason
strings are abbreviated. -/
def scoreNameSuspicion (pol : NamePolicy) (ratio : String → String → ℚ)
    (c : PackageCandidate) : ℚ × List String :=
  let nm := c.name.toLower
  let afterPre :=
    pol.suspiciousPrefixes.foldl
      (fun acc p =>
        if nm.startsWith p then
          (max acc.1 (8/10), acc.2 ++ ["Contains brand marker " ++ p])
        else acc)
      ((0 : ℚ), ([] : List String))
  let afterSuf :=
    pol.suspiciousSuffixes.foldl
      (fun acc p =>
        if nm.endsWith p then
          (max acc.1 (6/10), acc.2 ++ ["Contains trope marker " ++ p])
        else acc)
      afterPre
  let afterSim :=
    (pol.canonicalFor c.ecosystem).foldl
      (fun acc canonical =>
        let distance := 100 - ratio nm canonical.toLower
        if 0 < distance ∧ distance ≤ pol.fuzzyThreshold then
          (max acc.1 ((1 - distance / pol.fuzzyThreshold) * (9/10)),
            acc.2 ++ ["Very similar to " ++ canonical])
        else acc)
      afterSuf
  (min 1 afterSim.1, afterSim.2)

/-- The similarity bonus exactly as the claim words it: for distance
`d = 100 - ratio`, the bonus `0.9 * (1 - d/threshold)` is contributed
exactly when `0 < d ≤ threshold`, and 0 otherwise. -/
def simBonus (threshold : ℚ) (ratio : String → String → ℚ)
    (nm canonical : String) : ℚ :=
  let d := 100 - ratio nm canonical.toLower
  if 0 < d ∧ d ≤ threshold then (1 - d / threshold) * (9/10) else 0

/-- Maximum of a list of rationals against a floor of 0. -/
def listMax (l : List ℚ) : ℚ := l.foldr max 0

/-- The name-suspicion score as the claim words it: the maximum of the
prefix contributions (0.8 per hit), the suffix contributions (0.6 per hit)
and the similarity bonuses, clamped to 1. -/
def nameSuspicionSpec (pol : NamePolicy) (ratio : String → String → ℚ)
    (c : PackageCandidate) : ℚ :=
  let nm := c.name.toLower
  min 1
    (max
      (max
        (listMax (pol.suspiciousPrefixes.map
          (fun p => if nm.startsWith p then 8/10 else 0)))
        (listMax (pol.suspiciousSuffixes.map
          (fun p => if nm.endsWith p then 6/10 else 0))))
      (listMax ((pol.canonicalFor c.ecosystem).map
        (simBonus pol.fuzzyThreshold ratio nm))))

/-! ## The scorer (radar/scoring/heuristics.py, PackageScorer.score)

Python exceptions are modelled with `Except`: a subroutine that can raise
returns `Except PyExc (ℚ × List String)`.  Calling a Python function with
fewer positional arguments than its required parameters raises `TypeError`
at the call site, before the body runs; `pyCallCheck` encodes that rule. -/

/-- The exception kinds the embedded scorer can surface. -/
inductive PyExc
| typeError
deriving DecidableEq, Repr

/-- Python call-site semantics: a call supplying fewer positional arguments
than the callee declares as required raises `TypeError` before the callee
body runs. -/
def pyCallCheck (requiredParams suppliedArgs : Nat)
    (body : Except PyExc (ℚ × List String)) : Except PyExc (ℚ × List String) :=
  if suppliedArgs < requiredParams then .error .typeError else body

/-- Required positional parameters of `get_repo_facts`
(radar/enrich/reputation.py lines 37-41): `repo_url` and `policy`
(`offline` has a default). -/
def getRepoFactsRequiredParams : Nat := 2

/-- Positional arguments supplied by the call
`get_repo_facts(candidate.repository)` in `_score_repo_asymmetry`
(heuristics.py line 388). -/
def repoAsymmetryCallArgs : Nat := 1

/-- Required positional parameters of `npm_weekly_downloads`
(radar/enrich/downloads.py line 8): `name` and `policy` (`offline` has a
default). -/
def npmWeeklyDownloadsRequiredParams : Nat := 2

/-- Positional arguments supplied by the call
`npm_weekly_downloads(candidate.name)` in `_score_download_anomaly`
(heuristics.py line 413). -/
def downloadAnomalyCallArgs : Nat := 1

/-- Embeds `compute_repo_asymmetry` (reputation.py lines 216-252). -/
def computeRepoAsymmetry (pkgAgeDays repoAgeDays : Int) : ℚ :=
  let diff := pkgAgeDays - repoAgeDays
  if diff ≤ 0 then 0 else min 1 ((diff : ℚ) / 30)

/-- Embeds `PackageScorer._score_repo_asymmetry` (heuristics.py lines
376-399).  `repoFacts` abstracts the GitHub lookup result (repo age in
days); the call to `get_repo_facts` supplies one positional argument where
two are required, so reaching it raises `TypeError`. -/
def scoreRepoAsymmetry (offline enableGithub : Bool)
    (repoFacts : String → Option Int) (now : Int) (c : PackageCandidate) :
    Except PyExc (ℚ × List String) :=
  if offline then .ok (0, ["Offline mode: repo check skipped"])
  else
    match c.repository with
    | none => .ok (0, [])
    | some url =>
      if ¬ enableGithub then .ok (0, ["GitHub checks disabled"])
      else
        pyCallCheck getRepoFactsRequiredParams repoAsymmetryCallArgs
          (match repoFacts url with
          | none => .ok (0, [])
          | some repoAgeDays =>
            let asym := computeRepoAsymmetry (now - c.createdAt) repoAgeDays
            if asym > 1/2 then .ok (asym, ["Package age vs repo age mismatch"])
            else .ok (asym, []))

/-- Embeds `PackageScorer._score_download_anomaly` (heuristics.py lines
401-430).  `weeklyDownloads` abstracts the npm downloads endpoint; the call
to `npm_weekly_downloads` supplies one positional argument where two are
required, so reaching it raises `TypeError`. -/
def scoreDownloadAnomalySub (offline enableNpmDownloads : Bool)
    (weeklyDownloads : String → Option Int) (now : Int) (c : PackageCandidate) :
    Except PyExc (ℚ × List String) :=
  if offline then .ok (0, ["Offline mode: download check skipped"])
  else if c.ecosystem ≠ .npm then .ok (0, [])
  else if ¬ enableNpmDownloads then .ok (0, ["Download checks disabled"])
  else
    pyCallCheck npmWeeklyDownloadsRequiredParams downloadAnomalyCallArgs
      (match weeklyDownloads c.name with
      | none => .ok (0, [])
      | some dl =>
        let anomaly := computeDownloadAnomaly (some dl) (now - c.createdAt)
        if anomaly > 3/10 then .ok (anomaly, ["Unusual download pattern"])
        else .ok (anomaly, []))

/-- Embeds `is_known_hallucination` (radar/corpus/hallucinations.py lines
65-90); the loaded corpus is abstracted as an exact lowercase list plus a
regex-match oracle on the lowercased name. -/
def isKnownHallucination (exact : List String) (regexMatch : String → Bool)
    (nm : String) : Bool × String :=
  if nm = "" then (false, "")
  else if nm.toLower ∈ exact then (true, "Known hallucinated name: " ++ nm)
  else if regexMatch nm.toLower then (true, "Matches hallucination pattern")
  else (false, "")

/-- Embeds `PackageScorer._score_known_hallucination` (heuristics.py lines
232-239). -/
def scoreKnownHallucination (exact : List String) (regexMatch : String → Bool)
    (c : PackageCandidate) : ℚ × List String :=
  let res := isKnownHallucination exact regexMatch c.name
  if res.1 then (1, [res.2]) else (0, [])

/-- Embeds `PackageScorer._score_newness` (heuristics.py lines 157-179).
`threshold` is `heuristics.new_package_days`. -/
def scoreNewness (now : Int) (threshold : Int) (c : PackageCandidate) :
    ℚ × List String :=
  let ageDays := now - c.createdAt
  if ageDays ≤ 0 then (1, ["Published today"])
  else if ageDays ≤ threshold then
    (1 - (ageDays : ℚ) / (threshold : ℚ), ["Only days old"])
  else (0, [])

/-- Embeds `PackageScorer._score_repo_missing` (heuristics.py lines
181-200); `bool()` truthiness treats the empty string like `None`. -/
def scoreRepoMissing (c : PackageCandidate) : ℚ × List String :=
  let hasRepo := pyTruthy c.repository
  let hasHomepage := pyTruthy c.homepage
  if ¬ hasRepo ∧ ¬ hasHomepage then (1, ["No repository or homepage"])
  else if ¬ hasRepo then (1/2, ["No repository URL"])
  else if ¬ hasHomepage then (1/2, ["No homepage URL"])
  else (0, [])

/-- Embeds `PackageScorer._score_maintainer_reputation` (heuristics.py
lines 202-218). -/
def scoreMaintainerReputation (c : PackageCandidate) : ℚ × List String :=
  if c.maintainersCount ≤ 1 then (1, ["Single maintainer"])
  else if c.maintainersCount = 2 then (1/2, ["Only 2 maintainers"])
  else (0, [])

/-- Embeds `PackageScorer._score_script_risk` (heuristics.py lines
220-230). -/
def scoreScriptRisk (c : PackageCandidate) : ℚ × List String :=
  if c.ecosystem = .npm ∧ c.hasInstallScripts then
    (1, ["Has install scripts"])
  else (0, [])

/-- Embeds `PackageScorer._score_docs_absence` (heuristics.py lines
322-349). -/
def scoreDocsAbsence (c : PackageCandidate) : ℚ × List String :=
  let hasHomepage := pyTruthy c.homepage
  let hasRepo := pyTruthy c.repository
  let hasDocs :=
    match c.ecosystem with
    | .pypi =>
      let urls :=
        match c.rawMetadata.pypiDoc with
        | some d => d.info.projectUrls.getD []
        | none => []
      urls.any (fun kv =>
        kv.1 = "Documentation" || kv.1 = "Docs" ||
        kv.1 = "documentation" || kv.1 = "docs")
    | .npm => false
  if !hasHomepage && !hasRepo && !hasDocs then
    (1, ["No homepage, repository, or documentation links"])
  else if !hasDocs then (1/2, ["No dedicated documentation URL"])
  else (0, [])

/-- The scripts table `_score_npm_content_risk` (heuristics.py lines
253-269) locates: the `latest_scripts` key, falling back to the scripts of
the `dist-tags.latest` version (default: the candidate version). -/
def npmContentScripts (c : PackageCandidate) : List (String × String) :=
  match c.rawMetadata.npmPackument with
  | none => []
  | some p =>
    if p.latestScripts ≠ [] then p.latestScripts
    else
      let latest := p.distTagLatest.getD c.version
      match lookupVersion latest p.versions with
      | some vd => vd.scripts
      | none => []

/-- The oracle inputs of the scorer: the offline switch, policy toggles and
thresholds, and the network-backed or library-backed helpers abstracted as
total functions.  `vflip` abstracts `analyze_version_flip`.  Modelled from
the spec: `analyze_version_flip` is imported by the scorer from
`radar.enrich.versions` but is not present in the source tree; per the spec
every enrichment returns a `(value, reasons)` pair and never throws, so it
is a total oracle here.  `lintScripts` abstracts `lint_scripts`
(radar/analysis/npm_scripts.py) and `contentPyPI` the try/except-wrapped
PyPI artifact analysis, both of which return totally. -/
structure ScorerEnv where
  offline : Bool
  enableGithub : Bool := true
  enableNpmDownloads : Bool := true
  now : Int := 0
  newPackageDays : Int := 14
  namePolicy : NamePolicy := {}
  ratio : String → String → ℚ := fun _ _ => 0
  corpusExact : List String := []
  corpusRegexMatch : String → Bool := fun _ => false
  lintScripts : List (String × String) → ℚ × List String := fun _ => (0, [])
  contentPyPI : PackageCandidate → ℚ × List String := fun _ => (0, [])
  repoFacts : String → Option Int := fun _ => none
  weeklyDownloads : String → Option Int := fun _ => none
  vflip : Ecosystem → String → RawMeta → ℚ × List String := fun _ _ _ => (0, [])

/-- Embeds `PackageScorer._score_content_risk` (heuristics.py lines
241-269): offline short-circuits; npm lints the located scripts table; the
PyPI branch is wrapped in try/except in the source and never raises, so it
is a total oracle. -/
def scoreContentRisk (env : ScorerEnv) (c : PackageCandidate) : ℚ × List String :=
  if env.offline then (0, ["Offline mode: content analysis skipped"])
  else
    match c.ecosystem with
    | .npm =>
      let scripts := npmContentScripts c
      if scripts = [] then (0, []) else env.lintScripts scripts
    | .pypi => env.contentPyPI c

/-- Embeds `PackageScorer._score_version_flip` (heuristics.py lines
432-442) over the `vflip` oracle (see `ScorerEnv`). -/
def scoreVersionFlip (env : ScorerEnv) (c : PackageCandidate) : ℚ × List String :=
  if env.offline then (0, ["Offline mode: version history check skipped"])
  else env.vflip c.ecosystem c.name c.rawMetadata

/-- Embeds `ScoreBreakdown` (radar/types.py lines 32-51). -/
structure ScoreBreakdown where
  nameSuspicion : ℚ := 0
  knownHallucination : ℚ := 0
  contentRisk : ℚ := 0
  scriptRisk : ℚ := 0
  newness : ℚ := 0
  repoMissing : ℚ := 0
  maintainerReputation : ℚ := 0
  docsAbsence : ℚ := 0
  provenanceRisk : ℚ := 0
  repoAsymmetry : ℚ := 0
  downloadAnomaly : ℚ := 0
  versionFlip : ℚ := 0
  reasons : List String := []
deriving DecidableEq, Repr

/-- Embeds `PackageScorer.score` (heuristics.py lines 34-100): the twelve
subroutines fire in source order and their reasons are concatenated.  The
two subroutines whose enrichment calls supply too few positional arguments
can surface `TypeError`, which propagates out of `score`. -/
def scorerScore (env : ScorerEnv) (c : PackageCandidate) :
    Except PyExc ScoreBreakdown := do
  let (s1, r1) := scoreNameSuspicion env.namePolicy env.ratio c
  let (s2, r2) := scoreKnownHallucination env.corpusExact env.corpusRegexMatch c
  let (s3, r3) := scoreContentRisk env c
  let (s4, r4) := scoreScriptRisk c
  let (s5, r5) := scoreNewness env.now env.newPackageDays c
  let (s6, r6) := scoreRepoMissing c
  let (s7, r7) := scoreMaintainerReputation c
  let (s8, r8) := scoreDocsAbsence c
  let (s9, r9) := scoreProvenanceRisk env.offline env.enableGithub c
  let (s10, r10) ← scoreRepoAsymmetry env.offline env.enableGithub env.repoFacts env.now c
  let (s11, r11) ← scoreDownloadAnomalySub env.offline env.enableNpmDownloads
    env.weeklyDownloads env.now c
  let (s12, r12) := scoreVersionFlip env c
  return {
      nameSuspicion := s1
      knownHallucination := s2
      contentRisk := s3
      scriptRisk := s4
      newness := s5
      repoMissing := s6
      maintainerReputation := s7
      docsAbsence := s8
      provenanceRisk := s9
      repoAsymmetry := s10
      downloadAnomaly := s11
      versionFlip := s12
      reasons := r1 ++ r2 ++ r3 ++ r4 ++ r5 ++ r6 ++ r7 ++ r8 ++ r9 ++ r10 ++ r11 ++ r12 }

/-! ## Existence routing and ranking (radar/pipeline/score.py) -/

/-- A scored candidate as the day run holds it: its identity, the weighted
total, the newness subscore, and the registry-existence annotation the loop
sets on the breakdown. -/
structure ScoredRow where
  ecosystem : Ecosystem
  name : String
  score : ℚ
  newness : ℚ
  existsInReg : Bool := true
  notFoundReason : Option String := none
deriving DecidableEq, Repr

/-- A watchlist entry (radar/types.py WatchlistEntry, minus the wall-clock
`first_seen_at`). -/
structure WatchEntry where
  ecosystem : Ecosystem
  name : String
  notFoundReason : String
deriving DecidableEq, Repr

/-- Embeds the per-candidate loop of `score_candidates` (score.py lines
58-91).  `probe` abstracts `exists_in_registry` for the run, `scoreOf` and
`newnessOf` the scorer output.  In strict mode a candidate whose probe
comes back negative goes to the watchlist with the probe reason and is not
scored; otherwise it is scored with the existence annotation attached. -/
def routeCandidates (strict : Bool) (probe : Ecosystem → String → Bool × String)
    (scoreOf newnessOf : PackageCandidate → ℚ) :
    List PackageCandidate → List ScoredRow × List WatchEntry
| [] => ([], [])
| c :: rest =>
  let pr := probe c.ecosystem c.name
  let restRes := routeCandidates strict probe scoreOf newnessOf rest
  if strict ∧ pr.1 = false then
    (restRes.1, ⟨c.ecosystem, c.name, pr.2⟩ :: restRes.2)
  else
    (⟨c.ecosystem, c.name, scoreOf c, newnessOf c, pr.1,
        if pr.1 then none else some pr.2⟩ :: restRes.1,
      restRes.2)

/-- The comparison `score_candidates` sorts with (score.py line 94):
descending weighted total.  `scoreGE a b` means a may precede b. -/
def scoreGE (a b : ScoredRow) : Prop := b.score ≤ a.score

instance : DecidableRel scoreGE := fun a b => inferInstanceAs (Decidable (b.score ≤ a.score))

instance : IsTotal ScoredRow scoreGE := ⟨fun a b => le_total b.score a.score⟩

instance : IsTrans ScoredRow scoreGE := ⟨fun _ _ _ h1 h2 => le_trans h2 h1⟩

/-- Embeds `scored.sort(key=lambda x: x.score, reverse=True)` (score.py
line 94): Python sort is stable, and a stable sort by descending score is
insertion sort under `scoreGE` (equal scores keep their input order, since
`orderedInsert` places an element before the first one it ties with). -/
def pythonRank (l : List ScoredRow) : List ScoredRow :=
  l.insertionSort scoreGE

/-- The feed item key the claim orders by: `ecosystem:name`. -/
def feedKey (r : ScoredRow) : String := r.ecosystem.value ++ ":" ++ r.name

/-- The ordering the claim asserts between consecutive feed items: larger
total first; on equal totals larger newness first; on equal newness the
lexicographically smaller `ecosystem:name` first. -/
def claimPrec (a b : ScoredRow) : Prop :=
  b.score < a.score ∨
    (b.score = a.score ∧
      (b.newness < a.newness ∨
        (b.newness = a.newness ∧ feedKey a ≤ feedKey b)))

instance : DecidableRel claimPrec := fun a b => by
  unfold claimPrec
  infer_instance

/-- The ranked feed order the claim asserts, as a pairwise property. -/
def ClaimRanked (l : List ScoredRow) : Prop := l.Pairwise claimPrec

instance (l : List ScoredRow) : Decidable (ClaimRanked l) :=
  inferInstanceAs (Decidable (l.Pairwise claimPrec))

/-! ## Dated tabular store (radar/storage.py) -/

/-- One row of the `scored_candidates` table, restricted to the columns the
idempotence claim concerns (the key and a payload column). -/
structure DbRow where
  date : String
  ecosystem : Ecosystem
  name : String
  score : ℚ
deriving DecidableEq, Repr

/-- The row built from one scored candidate for a given date (the record
dict of `insert_scored_candidates`). -/
def rowOf (date : String) (sc : ScoredRow) : DbRow :=
  ⟨date, sc.ecosystem, sc.name, sc.score⟩

/-- Embeds `StorageManager.insert_scored_candidates` (storage.py lines
59-97): an empty candidate list returns immediately; otherwise all rows of
the given date are deleted and the new rows appended. -/
def insertScoredCandidates (table : List DbRow) (cands : List ScoredRow)
    (date : String) : List DbRow :=
  if cands = [] then table
  else table.filter (fun r => r.date ≠ date) ++ cands.map (rowOf date)

/-- The rows of one date (the `WHERE date = ?` selection of
`get_scored_candidates`, storage.py lines 99-103, before ordering). -/
def rowsForDate (table : List DbRow) (date : String) : List DbRow :=
  table.filter (fun r => r.date = date)

/-! ## Theorems -/

/-- C7 counterexample: the claim asserts the subscore equals
`min(downloads/10000, 1)` for age below 7 days once weekly downloads reach
1000, and covers ages 7 to 30; the code requires strictly more than 1000
downloads, and an age of exactly 30 days falls outside the second branch.
At downloads = 1000, age = 0 the code yields 0, not 1/10; at downloads =
20000, age = 30 it yields 0, not 1/5. -/
theorem downloadAnomaly_claim_false :
    computeDownloadAnomaly (some 1000) 0 = 0 ∧
    computeDownloadAnomaly (some 1000) 0 ≠ min ((1000 : ℚ) / 10000) 1 ∧
    computeDownloadAnomaly (some 20000) 30 = 0 ∧
    computeDownloadAnomaly (some 20000) 30 ≠ min (((20000 : ℚ) - 10000) / 50000) 1 := by
  refine ⟨rfl, ?_, rfl, ?_⟩ <;> norm_num [computeDownloadAnomaly]

/-- C7 amended: the download-anomaly subscore equals
`min(downloads/10000, 1)` for age below 7 days with weekly downloads
strictly above 1000, `min((downloads - 10000)/50000, 1)` for ages 7 to 29
days with weekly downloads strictly above 10000, and 0 in every other case
(including unknown or zero downloads). -/
theorem downloadAnomaly_matches_spec (downloads : Option Int) (ageDays : Int) :
    computeDownloadAnomaly downloads ageDays = downloadAnomalySpec downloads ageDays := by
  cases downloads with
  | none => rfl
  | some d =>
    unfold computeDownloadAnomaly downloadAnomalySpec
    dsimp only
    split_ifs <;> first
      | rfl
      | omega
      | rw [min_comm]

/-- C6: the existence prober is total by construction and its reason always
lies in the advertised set; offline mode returns `(false, "offline")` with
zero HTTP requests issued; a transport timeout on the executed call yields
`(false, "timeout")` and any other transport error `(false, "error")`, for
npm both on the HEAD call and on the GET fallback after a non-200/404 HEAD
status, and for PyPI on its single GET. -/
theorem existenceProber_total (offline : Bool) (eco nm : String)
    (head get : HttpOutcome) :
    ((existsInRegistry offline eco nm head get).1.2 ∈
      (["ok", "404", "timeout", "offline", "error"] : List String)) ∧
    existsInRegistry true eco nm head get = ((false, "offline"), 0) ∧
    existsInRegistry false "npm" nm .timeout get = ((false, "timeout"), 1) ∧
    existsInRegistry false "npm" nm .otherError get = ((false, "error"), 1) ∧
    existsInRegistry false "pypi" nm head .timeout = ((false, "timeout"), 1) ∧
    existsInRegistry false "pypi" nm head .otherError = ((false, "error"), 1) ∧
    (∀ c : Nat, c ≠ 200 → c ≠ 404 →
      existsInRegistry false "npm" nm (.status c) .timeout = ((false, "timeout"), 2) ∧
      existsInRegistry false "npm" nm (.status c) .otherError = ((false, "error"), 2)) := by
  refine ⟨?_, rfl, rfl, rfl, ?_, ?_, ?_⟩
  · by_cases ho : offline
    · simp [existsInRegistry, ho]
    · by_cases hn : eco = "npm"
      · cases head <;> cases get <;>
          simp [existsInRegistry, checkNpmExistence, ho, hn] <;>
          split_ifs <;> simp
      · by_cases hp : eco = "pypi"
        · cases get <;>
            simp [existsInRegistry, checkPypiExistence, ho, hn, hp] <;>
            split_ifs <;> simp
        · simp [existsInRegistry, ho, hn, hp]
  · cases head <;> rfl
  · cases head <;> rfl
  · intro c h1 h2
    constructor <;> simp [existsInRegistry, checkNpmExistence, h1, h2]

/-- C6 witness: at the concrete inputs, a 500 HEAD followed by a GET
timeout yields `(false, "timeout")` after two requests, with the reason in
the advertised set. -/
theorem existenceProber_total_witness :
    ((existsInRegistry false "npm" "left-pad" (.status 500) .timeout).1.2 ∈
      (["ok", "404", "timeout", "offline", "error"] : List String)) ∧
    existsInRegistry false "npm" "left-pad" (.status 500) .timeout = ((false, "timeout"), 2) :=
  ⟨(existenceProber_total false "npm" "left-pad" (.status 500) .timeout).1,
    ((existenceProber_total false "npm" "left-pad" (.status 500) .timeout).2.2.2.2.2.2
      500 (by decide) (by decide)).1⟩

/-- C10 counterexample: with the offline switch on (checked before the
ecosystem dispatch), an unknown ecosystem returns `(false, "offline")`, not
`(false, "error")`. -/
theorem unknownEcosystem_claim_false :
    (existsInRegistry true "cargo" "serde" .timeout .timeout).1 = (false, "offline") ∧
    (existsInRegistry true "cargo" "serde" .timeout .timeout).1 ≠ (false, "error") := by
  exact ⟨rfl, by decide⟩

/-- C10 amended: for every ecosystem string other than "npm" and "pypi" and
any name, `exists_in_registry` issues no registry request and returns
`(false, "error")` when offline mode is off, and `(false, "offline")` when
offline mode is on. -/
theorem unknownEcosystem_no_lookup (eco nm : String) (h1 : eco ≠ "npm")
    (h2 : eco ≠ "pypi") (head get : HttpOutcome) :
    existsInRegistry false eco nm head get = ((false, "error"), 0) ∧
    existsInRegistry true eco nm head get = ((false, "offline"), 0) := by
  unfold existsInRegistry
  simp [h1, h2]

/-- C10 amended witness at a concrete unknown ecosystem. -/
theorem unknownEcosystem_no_lookup_witness :
    existsInRegistry false "cargo" "serde" .timeout .timeout = ((false, "error"), 0) ∧
    existsInRegistry true "cargo" "serde" .timeout .timeout = ((false, "offline"), 0) :=
  unknownEcosystem_no_lookup "cargo" "serde" (by decide) (by decide) .timeout .timeout

/-- An npm packument whose latest dist carries a nonempty `signatures`
list (the shape of current npm registry signatures). -/
def sigPackument : Packument :=
  { distTagLatest := some "1.0.0"
    versions := [("1.0.0", { dist := { signatures := some ["keyid"] } })] }

/-- An npm candidate carrying `sigPackument` as raw metadata. -/
def sigNpmCandidate : PackageCandidate :=
  { ecosystem := .npm
    name := "left-pad"
    version := "1.0.0"
    createdAt := 0
    rawMetadata := .npm sigPackument }

/-- A PyPI candidate with an empty raw document. -/
def pypiProvCandidate : PackageCandidate :=
  { ecosystem := .pypi
    name := "requests-helper"
    version := "1.0"
    createdAt := 0
    rawMetadata := .pypi {} }

/-- The npm provenance indicator only takes the values 0, 0.2 and 1. -/
theorem npmProvenanceIndicator_cases (pd : Option Packument) :
    npmProvenanceIndicator pd = 0 ∨ npmProvenanceIndicator pd = 2/10 ∨
    npmProvenanceIndicator pd = 1 := by
  rcases pd with _ | p
  · right; right; rfl
  · rcases hdt : p.distTagLatest with _ | latest
    · right; right; simp [npmProvenanceIndicator, hdt]
    · by_cases ha : ((lookupVersion latest p.versions).getD {}).dist.attestationsPresent
      · left; simp [npmProvenanceIndicator, hdt, ha]
      · rcases hs : ((lookupVersion latest p.versions).getD {}).dist.signatures
          with _ | (_ | ⟨s, ss⟩)
        · by_cases hn : ((lookupVersion latest p.versions).getD {}).dist.npmSignaturePresent
          · right; left; simp [npmProvenanceIndicator, hdt, ha, hs, hn]
          · right; right; simp [npmProvenanceIndicator, hdt, ha, hs, hn]
        · by_cases hn : ((lookupVersion latest p.versions).getD {}).dist.npmSignaturePresent
          · right; left; simp [npmProvenanceIndicator, hdt, ha, hs, hn]
          · right; right; simp [npmProvenanceIndicator, hdt, ha, hs, hn]
        · left; simp [npmProvenanceIndicator, hdt, ha, hs]

/-- For an online npm candidate with GitHub lookups enabled, the
provenance_risk subscore is exactly the npm provenance indicator of its
raw packument. -/
theorem scoreProvenance_npm_eq (c : PackageCandidate) (hc : c.ecosystem = .npm) :
    (scoreProvenanceRisk false true c).1 =
      npmProvenanceIndicator c.rawMetadata.npmPackument := by
  have h := npmProvenanceIndicator_cases c.rawMetadata.npmPackument
  unfold scoreProvenanceRisk
  rw [hc]
  rcases h with h | h | h <;> rw [h] <;> norm_num [h]

/-- C3 counterexample: an npm candidate whose latest dist has a nonempty
`signatures` list receives provenance_risk 0, not the claimed 0.2
(0.2 is reserved for the legacy `npm-signature` key); and a PyPI candidate
receives subscore 0, not the claimed 1 (the PyPI indicator returns 1 but
`_score_provenance_risk` discards it). -/
theorem provenanceRisk_claim_false :
    (scoreProvenanceRisk false true sigNpmCandidate).1 = 0 ∧
    (scoreProvenanceRisk false true sigNpmCandidate).1 ≠ 2/10 ∧
    (scoreProvenanceRisk false true pypiProvCandidate).1 = 0 ∧
    (scoreProvenanceRisk false true pypiProvCandidate).1 ≠ 1 := by
  have h1 : (scoreProvenanceRisk false true sigNpmCandidate).1 = 0 := by
    norm_num [scoreProvenanceRisk, sigNpmCandidate, sigPackument,
      RawMeta.npmPackument, npmProvenanceIndicator, lookupVersion]
  have h2 : (scoreProvenanceRisk false true pypiProvCandidate).1 = 0 := by rfl
  refine ⟨h1, ?_, h2, ?_⟩
  · rw [h1]; norm_num
  · rw [h2]; norm_num

/-- C3 amended: for an online npm candidate with GitHub lookups enabled,
the provenance_risk subscore is 0 when the latest dist has attestations, 0
when it has a nonempty signatures list, 0.2 when it has only the legacy
npm-signature marker, and 1 otherwise; for every PyPI candidate the
subscore is 0 (the PyPI indicator function returns 1, but the scorer
discards it). -/
theorem provenanceRisk_amended (c : PackageCandidate) (p : Packument)
    (latest : String) (hc : c.ecosystem = .npm) (hm : c.rawMetadata = .npm p)
    (hl : p.distTagLatest = some latest) :
    (((lookupVersion latest p.versions).getD {}).dist.attestationsPresent = true →
      (scoreProvenanceRisk false true c).1 = 0) ∧
    (∀ s ss, ((lookupVersion latest p.versions).getD {}).dist.signatures = some (s :: ss) →
      (scoreProvenanceRisk false true c).1 = 0) ∧
    (((lookupVersion latest p.versions).getD {}).dist.attestationsPresent = false →
      (((lookupVersion latest p.versions).getD {}).dist.signatures = none ∨
        ((lookupVersion latest p.versions).getD {}).dist.signatures = some []) →
      (scoreProvenanceRisk false true c).1 =
        (if ((lookupVersion latest p.versions).getD {}).dist.npmSignaturePresent
          then 2/10 else 1)) ∧
    (∀ c2 : PackageCandidate, c2.ecosystem = .pypi →
      (scoreProvenanceRisk false true c2).1 = 0) := by
  have heq := scoreProvenance_npm_eq c hc
  rw [hm] at heq
  refine ⟨?_, ?_, ?_, ?_⟩
  · intro ha
    rw [heq]
    simp [npmProvenanceIndicator, RawMeta.npmPackument, hl, ha]
  · intro s ss hs
    rw [heq]
    by_cases ha : ((lookupVersion latest p.versions).getD {}).dist.attestationsPresent
    · simp [npmProvenanceIndicator, RawMeta.npmPackument, hl, ha]
    · simp [npmProvenanceIndicator, RawMeta.npmPackument, hl, ha, hs]
  · intro ha hs
    rw [heq]
    rcases hs with hs | hs <;>
      simp [npmProvenanceIndicator, RawMeta.npmPackument, hl, ha, hs]
  · intro c2 hc2
    unfold scoreProvenanceRisk
    rw [hc2]
    rfl

/-- An npm packument whose latest dist carries only the legacy
npm-signature marker. -/
def legacySigPackument : Packument :=
  { distTagLatest := some "2.0.0"
    versions := [("2.0.0", { dist := { npmSignaturePresent := true } })] }

/-- An npm candidate carrying `legacySigPackument` as raw metadata. -/
def legacySigCandidate : PackageCandidate :=
  { ecosystem := .npm
    name := "express-helper"
    version := "2.0.0"
    createdAt := 0
    rawMetadata := .npm legacySigPackument }

/-- C3 amended witness: a legacy npm-signature candidate scores 0.2 and a
PyPI candidate scores 0. -/
theorem provenanceRisk_amended_witness :
    (scoreProvenanceRisk false true legacySigCandidate).1 = 2/10 ∧
    (scoreProvenanceRisk false true pypiProvCandidate).1 = 0 := by
  have h := provenanceRisk_amended legacySigCandidate legacySigPackument "2.0.0"
    rfl rfl rfl
  constructor
  · have h3 := h.2.2.1 (by norm_num [legacySigPackument, lookupVersion])
      (Or.inl (by norm_num [legacySigPackument, lookupVersion]))
    rw [h3]
    norm_num [legacySigPackument, lookupVersion]
  · exact h.2.2.2 pypiProvCandidate rfl

/-- The first component of a pair fold is the fold of the first components,
when the step updates the first component independently of the second. -/
theorem foldl_fst_eq {α : Type} (f : ℚ × List String → α → ℚ × List String)
    (g : ℚ → α → ℚ) (hfg : ∀ acc x, (f acc x).1 = g acc.1 x) :
    ∀ (l : List α) (init : ℚ × List String), (l.foldl f init).1 = l.foldl g init.1
  | [], _ => rfl
  | x :: xs, init => by
    rw [List.foldl_cons, List.foldl_cons, foldl_fst_eq f g hfg xs, hfg]

/-- A guarded running maximum is the running maximum of guarded
contributions, for a nonnegative start. -/
theorem foldl_if_max_eq {α : Type} (cond : α → Prop) [DecidablePred cond]
    (v : α → ℚ) :
    ∀ (l : List α) (a : ℚ), 0 ≤ a →
      l.foldl (fun s x => if cond x then max s (v x) else s) a =
        l.foldl (fun s x => max s (if cond x then v x else 0)) a
  | [], _, _ => rfl
  | x :: xs, a, ha => by
    rw [List.foldl_cons, List.foldl_cons]
    by_cases hc : cond x
    · rw [if_pos hc, if_pos hc]
      exact foldl_if_max_eq cond v xs (max a (v x)) (le_trans ha (le_max_left _ _))
    · rw [if_neg hc, if_neg hc, max_eq_left ha]
      exact foldl_if_max_eq cond v xs a ha

/-- A running maximum started at a nonnegative value is the maximum of the
start and the list maximum of the contributions. -/
theorem foldl_max_listMax {α : Type} (f : α → ℚ) :
    ∀ (l : List α) (a : ℚ), 0 ≤ a →
      l.foldl (fun s x => max s (f x)) a = max a (listMax (l.map f))
  | [], a, ha => by
    simp [listMax, max_eq_left ha]
  | x :: xs, a, ha => by
    rw [List.foldl_cons, List.map_cons,
      foldl_max_listMax f xs (max a (f x)) (le_trans ha (le_max_left _ _))]
    show max (max a (f x)) (listMax (xs.map f)) = max a (listMax (f x :: xs.map f))
    rw [max_assoc]
    rfl

/-- The list maximum against a floor of 0 is nonnegative. -/
theorem listMax_nonneg : ∀ l : List ℚ, 0 ≤ listMax l
  | [] => le_refl 0
  | x :: xs => le_trans (listMax_nonneg xs) (le_max_right x (listMax xs))

/-- A guarded running maximum from a nonnegative start, in closed form. -/
theorem foldl_if_max_closed {α : Type} (cond : α → Prop) [DecidablePred cond]
    (v : α → ℚ) (l : List α) (a : ℚ) (ha : 0 ≤ a) :
    l.foldl (fun s x => if cond x then max s (v x) else s) a =
      max a (listMax (l.map (fun x => if cond x then v x else 0))) := by
  rw [foldl_if_max_eq cond v l a ha, foldl_max_listMax _ l a ha]

/-- C5: the name-suspicion score equals the claimed closed form: the
maximum of the prefix contributions (0.8 per suspicious-prefix hit), the
suffix contributions (0.6 per hit) and the per-canonical similarity
bonuses `0.9 * (1 - d/threshold)` contributed exactly when
`0 < d ≤ threshold` for `d = 100 - ratio`, all clamped by `min 1`; and an
exact canonical match (ratio 100, distance 0) contributes no similarity
bonus. -/
theorem nameSuspicion_matches_spec (pol : NamePolicy)
    (ratio : String → String → ℚ) (c : PackageCandidate) :
    (scoreNameSuspicion pol ratio c).1 = nameSuspicionSpec pol ratio c ∧
    (∀ canonical : String, ratio c.name.toLower canonical.toLower = 100 →
      simBonus pol.fuzzyThreshold ratio c.name.toLower canonical = 0) := by
  constructor
  · unfold scoreNameSuspicion nameSuspicionSpec
    dsimp only
    congr 1
    rw [foldl_fst_eq _
      (fun s canonical =>
        if 0 < 100 - ratio c.name.toLower canonical.toLower ∧
            100 - ratio c.name.toLower canonical.toLower ≤ pol.fuzzyThreshold then
          max s ((1 - (100 - ratio c.name.toLower canonical.toLower) /
            pol.fuzzyThreshold) * (9/10))
        else s)
      (fun acc x => by dsimp only; split_ifs <;> rfl)]
    rw [foldl_fst_eq _
      (fun s p => if c.name.toLower.endsWith p then max s (6/10) else s)
      (fun acc x => by dsimp only; split_ifs <;> rfl)]
    rw [foldl_fst_eq _
      (fun s p => if c.name.toLower.startsWith p then max s (8/10) else s)
      (fun acc x => by dsimp only; split_ifs <;> rfl)]
    rw [foldl_if_max_closed
      (fun p => c.name.toLower.startsWith p = true) (fun _ => 8/10)
      pol.suspiciousPrefixes _ le_rfl]
    rw [foldl_if_max_closed
      (fun p => c.name.toLower.endsWith p = true) (fun _ => 6/10)
      pol.suspiciousSuffixes _
      (le_trans (listMax_nonneg _) (le_max_right _ _))]
    rw [foldl_if_max_closed
      (fun canonical =>
        0 < 100 - ratio c.name.toLower canonical.toLower ∧
          100 - ratio c.name.toLower canonical.toLower ≤ pol.fuzzyThreshold)
      (fun canonical =>
        (1 - (100 - ratio c.name.toLower canonical.toLower) /
          pol.fuzzyThreshold) * (9/10))
      (pol.canonicalFor c.ecosystem) _
      (le_trans (listMax_nonneg _) (le_max_right _ _))]
    rw [max_eq_right (listMax_nonneg _)]
    have hsim : simBonus pol.fuzzyThreshold ratio c.name.toLower =
        (fun canonical =>
          if 0 < 100 - ratio c.name.toLower canonical.toLower ∧
              100 - ratio c.name.toLower canonical.toLower ≤ pol.fuzzyThreshold then
            (1 - (100 - ratio c.name.toLower canonical.toLower) /
              pol.fuzzyThreshold) * (9/10)
          else 0) := by
      funext canonical
      simp [simBonus]
    rw [hsim]
  · intro canonical h
    unfold simBonus
    dsimp only
    rw [h]
    norm_num

/-- A similarity oracle for the witness: 100 on equal strings, else 80. -/
def witnessRatio (a b : String) : ℚ := if a = b then 100 else 80

/-- A small concrete name policy for the witness. -/
def witnessNamePolicy : NamePolicy :=
  { suspiciousPrefixes := ["ai-"]
    suspiciousSuffixes := ["-sdk"]
    canonicalPypi := ["requests"]
    canonicalNpm := []
    fuzzyThreshold := 30 }

/-- A candidate whose name is exactly a canonical name. -/
def witnessExactCandidate : PackageCandidate :=
  { ecosystem := .pypi
    name := "requests"
    version := "1.0"
    createdAt := 0 }

/-- C5 witness: at a concrete policy, ratio oracle and candidate, the score
matches the closed form and the exact canonical match contributes no
similarity bonus. -/
theorem nameSuspicion_matches_spec_witness :
    (scoreNameSuspicion witnessNamePolicy witnessRatio witnessExactCandidate).1 =
      nameSuspicionSpec witnessNamePolicy witnessRatio witnessExactCandidate ∧
    simBonus witnessNamePolicy.fuzzyThreshold witnessRatio
      witnessExactCandidate.name.toLower "requests" = 0 :=
  ⟨(nameSuspicion_matches_spec witnessNamePolicy witnessRatio witnessExactCandidate).1,
    (nameSuspicion_matches_spec witnessNamePolicy witnessRatio witnessExactCandidate).2
      "requests" (by simp [witnessRatio, witnessExactCandidate])⟩

/-- C4: in strict mode, every scored row has a positive existence probe,
every watchlist entry has a negative probe and carries the probe reason,
and for every (ecosystem, name) pair no entry appears in both the scored
feed and the watchlist. -/
theorem strictMode_watchlist_disjoint (strict : Bool)
    (probe : Ecosystem → String → Bool × String)
    (scoreOf newnessOf : PackageCandidate → ℚ)
    (cands : List PackageCandidate) (hs : strict = true) :
    (∀ s ∈ (routeCandidates strict probe scoreOf newnessOf cands).1,
      (probe s.ecosystem s.name).1 = true) ∧
    (∀ w ∈ (routeCandidates strict probe scoreOf newnessOf cands).2,
      (probe w.ecosystem w.name).1 = false ∧
      w.notFoundReason = (probe w.ecosystem w.name).2) ∧
    (∀ e n, ¬((∃ s ∈ (routeCandidates strict probe scoreOf newnessOf cands).1,
        s.ecosystem = e ∧ s.name = n) ∧
      (∃ w ∈ (routeCandidates strict probe scoreOf newnessOf cands).2,
        w.ecosystem = e ∧ w.name = n))) := by
  subst hs
  have main : (∀ s ∈ (routeCandidates true probe scoreOf newnessOf cands).1,
      (probe s.ecosystem s.name).1 = true) ∧
      (∀ w ∈ (routeCandidates true probe scoreOf newnessOf cands).2,
        (probe w.ecosystem w.name).1 = false ∧
        w.notFoundReason = (probe w.ecosystem w.name).2) := by
    induction cands with
    | nil =>
      exact ⟨fun s h => absurd h (List.not_mem_nil s),
        fun w h => absurd h (List.not_mem_nil w)⟩
    | cons c rest ih =>
      unfold routeCandidates
      by_cases hp : (probe c.ecosystem c.name).1 = false
      · rw [if_pos ⟨rfl, hp⟩]
        refine ⟨ih.1, ?_⟩
        intro w hw
        rcases List.mem_cons.mp hw with hw | hw
        · subst hw
          exact ⟨hp, rfl⟩
        · exact ih.2 w hw
      · rw [if_neg (fun hc => hp hc.2)]
        refine ⟨?_, ih.2⟩
        intro s hsm
        rcases List.mem_cons.mp hsm with hsm | hsm
        · subst hsm
          exact eq_true_of_ne_false hp
        · exact ih.1 s hsm
  refine ⟨main.1, main.2, ?_⟩
  rintro e n ⟨⟨s, hsmem, hse, hsn⟩, ⟨w, hwmem, hwe, hwn⟩⟩
  have h1 := main.1 s hsmem
  have h2 := (main.2 w hwmem).1
  rw [hse, hsn] at h1
  rw [hwe, hwn] at h2
  rw [h1] at h2
  exact Bool.noConfusion h2

/-- A probe for the witness: one name is missing with reason 404. -/
def witnessProbe : Ecosystem → String → Bool × String :=
  fun _ nm => if nm = "ghost-pkg" then (false, "404") else (true, "ok")

/-- Two candidates for the witness run, one of which does not resolve. -/
def witnessCands : List PackageCandidate :=
  [{ ecosystem := .npm, name := "ghost-pkg", version := "1", createdAt := 0 },
    { ecosystem := .npm, name := "left-pad", version := "1", createdAt := 0 }]

/-- C4 witness: the disjointness conclusion at a concrete strict run. -/
theorem strictMode_watchlist_disjoint_witness :
    (∀ s ∈ (routeCandidates true witnessProbe (fun _ => 0) (fun _ => 0) witnessCands).1,
      (witnessProbe s.ecosystem s.name).1 = true) ∧
    (∀ w ∈ (routeCandidates true witnessProbe (fun _ => 0) (fun _ => 0) witnessCands).2,
      (witnessProbe w.ecosystem w.name).1 = false ∧
      w.notFoundReason = (witnessProbe w.ecosystem w.name).2) ∧
    (∀ e n, ¬((∃ s ∈ (routeCandidates true witnessProbe (fun _ => 0) (fun _ => 0) witnessCands).1,
        s.ecosystem = e ∧ s.name = n) ∧
      (∃ w ∈ (routeCandidates true witnessProbe (fun _ => 0) (fun _ => 0) witnessCands).2,
        w.ecosystem = e ∧ w.name = n))) :=
  strictMode_watchlist_disjoint true witnessProbe (fun _ => 0) (fun _ => 0) witnessCands rfl

/-- A scored row with low newness, first in scoring order. -/
def rowA : ScoredRow := { ecosystem := .npm, name := "aaa", score := 1, newness := 0 }

/-- A scored row with the same total but higher newness, second in scoring
order. -/
def rowB : ScoredRow := { ecosystem := .npm, name := "bbb", score := 1, newness := 1 }

/-- C1 counterexample: the sort at score.py line 94 keys on the total score
only, so two rows with equal totals keep their input order even when the
later one has the larger newness subscore; the claimed newness tie-break is
violated. -/
theorem ranking_claim_false :
    pythonRank [rowA, rowB] = [rowA, rowB] ∧
    rowA.score = rowB.score ∧ rowA.newness < rowB.newness ∧
    ¬ ClaimRanked (pythonRank [rowA, rowB]) := by
  refine ⟨rfl, rfl, by decide, by decide⟩

/-- C1 amended: the emitted order is sorted by total descending and is a
permutation of the scored list (equal totals keep their scoring order,
Python sort being stable; no newness or ecosystem:name tie-break is
applied); it has no duplicates whenever the scored list has none. -/
theorem ranking_amended (l : List ScoredRow) :
    (pythonRank l).Sorted scoreGE ∧ (pythonRank l).Perm l ∧
    (l.Nodup → (pythonRank l).Nodup) := by
  refine ⟨List.sorted_insertionSort scoreGE l, List.perm_insertionSort scoreGE l, ?_⟩
  intro h
  exact ((List.perm_insertionSort scoreGE l).nodup_iff).mpr h

/-- C1 amended witness at the concrete two-row list. -/
theorem ranking_amended_witness :
    (pythonRank [rowA, rowB]).Sorted scoreGE ∧
    (pythonRank [rowA, rowB]).Perm [rowA, rowB] ∧
    (pythonRank [rowA, rowB]).Nodup :=
  ⟨(ranking_amended [rowA, rowB]).1, (ranking_amended [rowA, rowB]).2.1,
    (ranking_amended [rowA, rowB]).2.2 (by decide)⟩

/-- A concrete scored row for the storage witness. -/
def dbSampleRow : ScoredRow := { ecosystem := .pypi, name := "reqeusts", score := 1, newness := 1 }

/-- C8: the dated insert is idempotent: inserting the same scored list for
the same date a second time leaves the table unchanged, and for a nonempty
list the rows stored under that date afterwards are exactly the inserted
rows. -/
theorem insert_idempotent (t : List DbRow) (c : List ScoredRow) (d : String) :
    insertScoredCandidates (insertScoredCandidates t c d) c d =
      insertScoredCandidates t c d ∧
    (c ≠ [] → rowsForDate (insertScoredCandidates t c d) d = c.map (rowOf d)) := by
  by_cases hc : c = []
  · subst hc
    exact ⟨rfl, fun h => absurd rfl h⟩
  · have hmapne : ∀ cs : List ScoredRow,
        (cs.map (rowOf d)).filter (fun r => decide (r.date ≠ d)) = [] := by
      intro cs
      induction cs with
      | nil => rfl
      | cons x xs ih => simp [rowOf, ih]
    have hmapeq : ∀ cs : List ScoredRow,
        (cs.map (rowOf d)).filter (fun r => decide (r.date = d)) = cs.map (rowOf d) := by
      intro cs
      induction cs with
      | nil => rfl
      | cons x xs ih => simp [rowOf, ih]
    constructor
    · unfold insertScoredCandidates
      rw [if_neg hc, if_neg hc, List.filter_append, hmapne, List.append_nil,
        List.filter_filter]
      simp
    · intro _
      unfold insertScoredCandidates rowsForDate
      rw [if_neg hc, List.filter_append, hmapeq]
      have hne : (t.filter (fun r => decide (r.date ≠ d))).filter
          (fun r => decide (r.date = d)) = [] := by
        rw [List.filter_filter]
        simp
      rw [hne, List.nil_append]

/-- C8 witness: at a concrete table, row and date. -/
theorem insert_idempotent_witness :
    insertScoredCandidates
        (insertScoredCandidates [] [dbSampleRow] "2025-01-02") [dbSampleRow] "2025-01-02" =
      insertScoredCandidates [] [dbSampleRow] "2025-01-02" ∧
    rowsForDate (insertScoredCandidates [] [dbSampleRow] "2025-01-02") "2025-01-02" =
      [dbSampleRow].map (rowOf "2025-01-02") :=
  ⟨(insert_idempotent [] [dbSampleRow] "2025-01-02").1,
    (insert_idempotent [] [dbSampleRow] "2025-01-02").2 (by decide)⟩

/-- A PyPI candidate with a GitHub repository URL (online defaults). -/
def bugRepoCandidate : PackageCandidate :=
  { ecosystem := .pypi
    name := "requests-toolkit"
    version := "1.0"
    createdAt := 0
    repository := some "https://github.com/acme/requests-toolkit" }

/-- An npm candidate with no repository (online defaults). -/
def bugNpmCandidate : PackageCandidate :=
  { ecosystem := .npm
    name := "leftpad-utils"
    version := "1.0.0"
    createdAt := 0
    rawMetadata := .npm {} }

/-- C2: the scorer raises.  `_score_repo_asymmetry` calls
`get_repo_facts(candidate.repository)` with one positional argument where
the callee requires two, and `_score_download_anomaly` calls
`npm_weekly_downloads(candidate.name)` likewise, so both raise `TypeError`;
`PackageScorer.score` propagates it.  Concretely: any online candidate with
a repository and GitHub checks enabled crashes in subroutine ten, and any
online npm candidate with download checks enabled crashes in subroutine
eleven (shown here with GitHub checks disabled so that execution reaches
it). -/
theorem scorer_raises_typeError :
    scoreRepoAsymmetry false true (fun _ => none) 0 bugRepoCandidate =
      .error .typeError ∧
    scoreDownloadAnomalySub false true (fun _ => none) 0 bugNpmCandidate =
      .error .typeError ∧
    scorerScore { offline := false } bugRepoCandidate = .error .typeError ∧
    scorerScore { offline := false, enableGithub := false } bugNpmCandidate =
      .error .typeError := by
  refine ⟨rfl, rfl, rfl, rfl⟩

/-- A PyPI JSON document whose info.name is mixed-case, as PyPI serves for
many real projects. -/
def djangoDoc : PyPIDoc := { info := { name := some "Django", version := some "5.0" } }

/-- A PyPI JSON document with no name at all. -/
def namelessDoc : PyPIDoc := {}

/-- C9 counterexample: the PyPI parser stores the document name verbatim
("Django" stays mixed-case), and a document without a name yields the empty
string; no lowercasing or non-emptiness is enforced at construction. -/
theorem candidateName_claim_false :
    (parsePackageJson 20000 djangoDoc).name = "Django" ∧
    (parsePackageJson 20000 djangoDoc).name.toLower ≠ (parsePackageJson 20000 djangoDoc).name ∧
    (parsePackageJson 20000 namelessDoc).name = "" := by
  refine ⟨rfl, ?_, rfl⟩
  show String.map Char.toLower (parsePackageJson 20000 djangoDoc).name ≠
    (parsePackageJson 20000 djangoDoc).name
  rw [String.map_eq]
  decide

/-- C9 amended: no normalisation happens at construction; the candidate
name is stored exactly as found in the registry document.  The npm parser
rejects a missing or empty document name but stores a nonempty one
verbatim; the PyPI parser stores `info.name` verbatim, defaulting a missing
name to the empty string. -/
theorem candidateName_unnormalised (doc : Packument) (pd : PyPIDoc)
    (now now2 : Int) (c : PackageCandidate)
    (h : parseNpmDoc now doc = some c) :
    (c.name ≠ "" ∧ c.name = doc.name.getD "") ∧
    (parsePackageJson now2 pd).name = pd.info.name.getD "" := by
  refine ⟨?_, rfl⟩
  unfold parseNpmDoc at h
  rcases hn : doc.name with _ | n
  · rw [hn] at h
    exact absurd h (by simp)
  · rw [hn] at h
    dsimp only at h
    by_cases he : n = ""
    · rw [if_pos he] at h
      exact absurd h (by simp)
    · rw [if_neg he] at h
      injection h with h2
      subst h2
      exact ⟨he, rfl⟩

/-- A concrete npm document with a mixed-case name. -/
def exampleNpmDoc : Packument := { name := some "LeftPad", timeCreatedDay := some 100 }

/-- The candidate the npm parser produces from `exampleNpmDoc`. -/
def exampleNpmParsed : PackageCandidate :=
  { ecosystem := .npm
    name := "LeftPad"
    version := "0.0.0"
    createdAt := 100
    maintainersCount := 0
    rawMetadata := .npm exampleNpmDoc }

/-- C9 amended witness: the npm parser accepts `exampleNpmDoc` and stores
its nonempty name verbatim; the PyPI parser stores the Django name
verbatim. -/
theorem candidateName_unnormalised_witness :
    (exampleNpmParsed.name ≠ "" ∧ exampleNpmParsed.name = exampleNpmDoc.name.getD "") ∧
    (parsePackageJson 0 djangoDoc).name = djangoDoc.info.name.getD "" :=
  candidateName_unnormalised exampleNpmDoc djangoDoc 200 0 exampleNpmParsed rfl

end PhantomScan
